import Mathlib

/-!
Verification of the Garasje dual-vehicle charge-priority decision engine.

Shallow embedding of `src/core/decision_engine.py` together with the data
models it uses (`src/models/vehicle.py`, `src/models/recommendation.py`).
Python floats are modelled as rationals (`ℚ`); the arithmetic the engine
performs (subtraction, division, `min`, comparisons) is exact on every value
appearing in the spec.  Python's `datetime.now()` timestamp is passed in
explicitly as an integer parameter, making the functions pure.  Python's
`ZeroDivisionError` (raised by `gap / self.charge_threshold` when the
threshold is `0`) is modelled by returning `none`; every other path returns
`some` of the constructed `Recommendation`.
-/

namespace Garasje

/-- `ChargeAction` from `src/models/recommendation.py`. -/
inductive ChargeAction where
  | CHARGE
  | NO_CHARGE
  | CONTINUE_CHARGING
  deriving DecidableEq, Repr

/-- `VehicleStatus` from `src/models/vehicle.py`: the current status of a
vehicle.  `last_updated` and `estimated_full_time` timestamps are integers. -/
structure VehicleStatus where
  vehicle_name : String
  battery_percent : ℚ
  range_km : ℚ
  is_charging : Bool
  location : String
  last_updated : ℤ
  is_mock : Bool := false
  charging_rate_kw : Option ℚ := none
  estimated_full_time : Option ℤ := none
  latitude : Option ℚ := none
  longitude : Option ℚ := none
  address : Option String := none
  deriving DecidableEq, Repr

/-- `Recommendation` from `src/models/recommendation.py`. -/
structure Recommendation where
  action : ChargeAction
  reason : String
  timestamp : ℤ
  battery_percent : ℚ
  threshold : ℚ
  priority_score : ℚ := 0
  deriving DecidableEq, Repr

/-- The mutable configuration held by `DecisionEngine.__init__` in
`src/core/decision_engine.py` (defaults 80.0 and 20.0). -/
structure DecisionEngine where
  charge_threshold : ℚ := 80
  minimum_charge : ℚ := 20
  deriving DecidableEq, Repr

/-- `DecisionEngine.calculate_recommendation` from
`src/core/decision_engine.py`.  The four rules in source order: critical
floor, already-charging, above-threshold, below-threshold ramp.  `now` stands
for `datetime.now()`.  Rule 4 divides by `charge_threshold`; when that is `0`
Python raises `ZeroDivisionError`, modelled as `none`. -/
def calculate_recommendation (engine : DecisionEngine) (now : ℤ)
    (tesla_status : VehicleStatus) : Option Recommendation :=
  -- the Python local `battery = tesla_status.battery_percent` is inlined
  -- Rule 1: Critical low battery - always charge
  if tesla_status.battery_percent < engine.minimum_charge then
    some {
      action := ChargeAction.CHARGE
      reason := "Kritisk lavt batteri (" ++ toString tesla_status.battery_percent ++ "% < "
        ++ toString engine.minimum_charge ++ "%)"
      timestamp := now
      battery_percent := tesla_status.battery_percent
      threshold := engine.charge_threshold
      priority_score := 100 }
  -- Rule 2: Already charging - continue if below threshold
  else if tesla_status.is_charging then
    if tesla_status.battery_percent < engine.charge_threshold then
      some {
        action := ChargeAction.CONTINUE_CHARGING
        reason := "Fortsetter lading til terskel (" ++ toString tesla_status.battery_percent
          ++ "% til " ++ toString engine.charge_threshold ++ "%)"
        timestamp := now
        battery_percent := tesla_status.battery_percent
        threshold := engine.charge_threshold
        priority_score := 50 }
    else
      some {
        action := ChargeAction.NO_CHARGE
        reason := "Lading fullfort - over terskel (" ++ toString tesla_status.battery_percent
          ++ "% >= " ++ toString engine.charge_threshold ++ "%)"
        timestamp := now
        battery_percent := tesla_status.battery_percent
        threshold := engine.charge_threshold
        priority_score := 0 }
  -- Rule 3: Above threshold - no need to charge
  else if tesla_status.battery_percent ≥ engine.charge_threshold then
    some {
      action := ChargeAction.NO_CHARGE
      reason := "Batteri over terskel (" ++ toString tesla_status.battery_percent ++ "% >= "
        ++ toString engine.charge_threshold ++ "%)"
      timestamp := now
      battery_percent := tesla_status.battery_percent
      threshold := engine.charge_threshold
      priority_score := 0 }
  -- Rule 4: Below threshold - should charge
  else if engine.charge_threshold = 0 then
    none  -- Python: gap / self.charge_threshold raises ZeroDivisionError
  else
    -- Python locals `gap` and `priority` are inlined below
    some {
      action := ChargeAction.CHARGE
      reason := "Batteri under terskel (" ++ toString tesla_status.battery_percent ++ "% < "
        ++ toString engine.charge_threshold ++ "%)"
      timestamp := now
      battery_percent := tesla_status.battery_percent
      threshold := engine.charge_threshold
      priority_score :=
        min ((engine.charge_threshold - tesla_status.battery_percent) /
              engine.charge_threshold * 100) 100 }

/-- The helper `needs_charging` defined inside
`DecisionEngine.compare_vehicles`: action is `CHARGE` or
`CONTINUE_CHARGING`. -/
def needs_charging (action : ChargeAction) : Bool :=
  action = ChargeAction.CHARGE ∨ action = ChargeAction.CONTINUE_CHARGING

/-- `DecisionEngine.compare_vehicles` from `src/core/decision_engine.py`:
returns the name of the vehicle that should charge, or `"NONE"`.  `none`
models a `ZeroDivisionError` propagating out of
`calculate_recommendation`. -/
def compare_vehicles (engine : DecisionEngine) (now : ℤ)
    (vehicle_a vehicle_b : VehicleStatus) : Option String := do
  let rec_a ← calculate_recommendation engine now vehicle_a
  let rec_b ← calculate_recommendation engine now vehicle_b
  -- If neither should charge
  if ¬ needs_charging rec_a.action ∧ ¬ needs_charging rec_b.action then
    pure "NONE"
  -- If only one needs charging
  else if needs_charging rec_a.action ∧ ¬ needs_charging rec_b.action then
    pure vehicle_a.vehicle_name
  else if needs_charging rec_b.action ∧ ¬ needs_charging rec_a.action then
    pure vehicle_b.vehicle_name
  -- If both need charging, prioritize by priority score
  else if rec_a.priority_score > rec_b.priority_score then
    pure vehicle_a.vehicle_name
  else if rec_b.priority_score > rec_a.priority_score then
    pure vehicle_b.vehicle_name
  -- Equal priority - prefer the one with lower battery as tiebreaker
  else if vehicle_a.battery_percent < vehicle_b.battery_percent then
    pure vehicle_a.vehicle_name
  else
    pure vehicle_b.vehicle_name

/-- The dictionary returned by
`DecisionEngine.calculate_dual_recommendations`: keys `tesla`, `ioniq`
(absent, i.e. `None`, when the second vehicle is disabled) and
`priority_vehicle`. -/
structure DualRecommendations where
  tesla : Recommendation
  ioniq : Option Recommendation
  priority_vehicle : String
  deriving DecidableEq, Repr

/-- `DecisionEngine.calculate_dual_recommendations` from
`src/core/decision_engine.py`. -/
def calculate_dual_recommendations (engine : DecisionEngine) (now : ℤ)
    (tesla_status : VehicleStatus) (ioniq_status : Option VehicleStatus) :
    Option DualRecommendations := do
  let tesla_rec ← calculate_recommendation engine now tesla_status
  match ioniq_status with
  | some ioniq =>
      let ioniq_rec ← calculate_recommendation engine now ioniq
      let priority ← compare_vehicles engine now tesla_status ioniq
      pure { tesla := tesla_rec, ioniq := some ioniq_rec,
             priority_vehicle := priority }
  | none =>
      pure { tesla := tesla_rec, ioniq := none,
             priority_vehicle :=
               if tesla_rec.action = ChargeAction.CHARGE then
                 tesla_status.vehicle_name
               else "NONE" }

/-- `DecisionEngine.update_threshold` from `src/core/decision_engine.py`:
rejects values outside `[0, 100]` with a `ValueError` (modelled as
`Except.error`); the engine state is mutated only after the check, so an
error leaves the caller's engine unchanged. -/
def update_threshold (engine : DecisionEngine) (new_threshold : ℚ) :
    Except String DecisionEngine :=
  if 0 ≤ new_threshold ∧ new_threshold ≤ 100 then
    Except.ok { engine with charge_threshold := new_threshold }
  else
    Except.error "Threshold must be between 0 and 100"

/-- The comparison verdict as the specification describes it (its section
4.2): `"NONE"` when neither recommendation needs charging; the name of the
unique vehicle whose recommendation needs charging when exactly one does;
when both need charging, the name of the vehicle whose recommendation has the
strictly higher `priority_score`, exactly-equal scores broken by strictly
lower `battery_percent`, and vehicle `b` winning when the battery percentages
are also equal. -/
def compareSpec (ra rb : Recommendation) (a b : VehicleStatus) : String :=
  if ¬ needs_charging ra.action ∧ ¬ needs_charging rb.action then
    "NONE"
  else if needs_charging ra.action ∧ ¬ needs_charging rb.action then
    a.vehicle_name
  else if needs_charging rb.action ∧ ¬ needs_charging ra.action then
    b.vehicle_name
  else if ra.priority_score > rb.priority_score then
    a.vehicle_name
  else if rb.priority_score > ra.priority_score then
    b.vehicle_name
  else if a.battery_percent < b.battery_percent then
    a.vehicle_name
  else
    b.vehicle_name

/-- The logical content of a recommendation: every field except the free-text
`reason` and the wall-clock `timestamp`. -/
def logicalFields (r : Recommendation) : ChargeAction × ℚ × ℚ × ℚ :=
  (r.action, r.priority_score, r.battery_percent, r.threshold)

/-- A concrete `VehicleStatus` for evaluating the engine on specific
inputs. -/
def sampleStatus (name : String) (battery : ℚ) (charging : Bool) :
    VehicleStatus :=
  { vehicle_name := name, battery_percent := battery, range_km := 300,
    is_charging := charging, location := "home", last_updated := 0 }

/-
Helper lemmas shared by the claim theorems below.
-/

/-- `calculate_recommendation` returns a value on every status with a
non-negative battery percentage: the `ZeroDivisionError` branch needs
`battery_percent < charge_threshold = 0`. -/
theorem calc_isSome (engine : DecisionEngine) (now : ℤ) (s : VehicleStatus)
    (h : 0 ≤ s.battery_percent) :
    ∃ r, calculate_recommendation engine now s = some r := by
  unfold calculate_recommendation
  split_ifs with h1 h2 h3 h4 h5
  all_goals first
    | exact ⟨_, rfl⟩
    | (exfalso; push_neg at *; linarith)

/-- Exactly what rule 4 of `calculate_recommendation` produces when it is
reached with a non-zero threshold. -/
theorem calc_rule4 (engine : DecisionEngine) (now : ℤ) (s : VehicleStatus)
    (h1 : engine.minimum_charge ≤ s.battery_percent)
    (h2 : s.battery_percent < engine.charge_threshold)
    (h3 : s.is_charging = false)
    (ht : engine.charge_threshold ≠ 0) :
    ∃ r, calculate_recommendation engine now s = some r ∧
      r.action = ChargeAction.CHARGE ∧
      r.priority_score =
        min ((engine.charge_threshold - s.battery_percent) /
              engine.charge_threshold * 100) 100 := by
  unfold calculate_recommendation
  rw [if_neg (not_lt.mpr h1), h3]
  simp only [Bool.false_eq_true, if_false]
  rw [if_neg (not_le.mpr h2), if_neg ht]
  exact ⟨_, rfl, rfl, rfl⟩

/-- C3: for every reading with `battery_percent < minimum_charge` and every
configuration, `calculate_recommendation` returns action `CHARGE` with
`priority_score` exactly `100.0`, regardless of `is_charging` (the critical
floor overrides an in-progress charge session). -/
theorem critical_floor_always_charges (engine : DecisionEngine) (now : ℤ)
    (s : VehicleStatus) (h : s.battery_percent < engine.minimum_charge) :
    ∃ r, calculate_recommendation engine now s = some r ∧
      r.action = ChargeAction.CHARGE ∧ r.priority_score = 100 := by
  unfold calculate_recommendation
  rw [if_pos h]
  exact ⟨_, rfl, rfl, rfl⟩

/-- Witness for C3 at `battery = 15`, default configuration, while charging:
the critical floor fires even though a charge session is in progress. -/
theorem critical_floor_always_charges_sample :
    ∃ r, calculate_recommendation {} 0 (sampleStatus "Tesla" 15 true) =
        some r ∧
      r.action = ChargeAction.CHARGE ∧ r.priority_score = 100 :=
  critical_floor_always_charges {} 0 (sampleStatus "Tesla" 15 true)
    (by norm_num [sampleStatus])

/-- C2: for every reading with
`minimum_charge ≤ battery_percent < charge_threshold` and `is_charging`
false, `calculate_recommendation` returns action `CHARGE` with
`priority_score = min ((charge_threshold - battery_percent) /
charge_threshold * 100) 100`. -/
theorem below_threshold_charge_ramp (engine : DecisionEngine) (now : ℤ)
    (s : VehicleStatus) (h0 : 0 ≤ s.battery_percent)
    (hmin : engine.minimum_charge ≤ s.battery_percent)
    (hthr : s.battery_percent < engine.charge_threshold)
    (hch : s.is_charging = false) :
    ∃ r, calculate_recommendation engine now s = some r ∧
      r.action = ChargeAction.CHARGE ∧
      r.priority_score =
        min ((engine.charge_threshold - s.battery_percent) /
              engine.charge_threshold * 100) 100 :=
  calc_rule4 engine now s hmin hthr hch (lt_of_le_of_lt h0 hthr).ne'

/-- Witness for C2 at `battery = 60`, `charge_threshold = 80`,
`minimum_charge = 20`, not charging: action `CHARGE` with `priority_score`
exactly `25`. -/
theorem below_threshold_charge_ramp_sample :
    ∃ r, calculate_recommendation {} 0 (sampleStatus "Tesla" 60 false) =
        some r ∧
      r.action = ChargeAction.CHARGE ∧ r.priority_score = 25 := by
  obtain ⟨r, hr, ha, hs⟩ := below_threshold_charge_ramp {} 0
    (sampleStatus "Tesla" 60 false) (by norm_num [sampleStatus])
    (by norm_num [sampleStatus]) (by norm_num [sampleStatus]) rfl
  exact ⟨r, hr, ha, by rw [hs]; norm_num [sampleStatus]⟩

/-- C4: for every reading with `battery_percent ≥ minimum_charge`: if
`battery_percent ≥ charge_threshold` then the result is `NO_CHARGE` with
score `0` whether or not the vehicle is charging; and if the vehicle is
charging with `battery_percent < charge_threshold` the result is
`CONTINUE_CHARGING` with score exactly `50`. -/
theorem above_threshold_and_continue_charging (engine : DecisionEngine)
    (now : ℤ) (s : VehicleStatus)
    (hmin : engine.minimum_charge ≤ s.battery_percent) :
    (engine.charge_threshold ≤ s.battery_percent →
      ∃ r, calculate_recommendation engine now s = some r ∧
        r.action = ChargeAction.NO_CHARGE ∧ r.priority_score = 0)
    ∧ (s.is_charging = true →
        s.battery_percent < engine.charge_threshold →
      ∃ r, calculate_recommendation engine now s = some r ∧
        r.action = ChargeAction.CONTINUE_CHARGING ∧
        r.priority_score = 50) := by
  constructor
  · intro hge
    unfold calculate_recommendation
    rw [if_neg (not_lt.mpr hmin)]
    by_cases hch : s.is_charging
    · rw [if_pos hch, if_neg (not_lt.mpr hge)]
      exact ⟨_, rfl, rfl, rfl⟩
    · rw [if_neg hch, if_pos hge]
      exact ⟨_, rfl, rfl, rfl⟩
  · intro hch hlt
    unfold calculate_recommendation
    rw [if_neg (not_lt.mpr hmin), if_pos hch, if_pos hlt]
    exact ⟨_, rfl, rfl, rfl⟩

/-- Witness for C4: at `battery = 90`, charging, default configuration, the
result is `NO_CHARGE` with score `0`; at `battery = 50`, charging, it is
`CONTINUE_CHARGING` with score `50`. -/
theorem above_threshold_and_continue_charging_sample :
    (∃ r, calculate_recommendation {} 0 (sampleStatus "Tesla" 90 true) =
        some r ∧
      r.action = ChargeAction.NO_CHARGE ∧ r.priority_score = 0)
    ∧ ∃ r, calculate_recommendation {} 0 (sampleStatus "Tesla" 50 true) =
        some r ∧
      r.action = ChargeAction.CONTINUE_CHARGING ∧ r.priority_score = 50 :=
  ⟨(above_threshold_and_continue_charging {} 0 (sampleStatus "Tesla" 90 true)
      (by norm_num [sampleStatus])).1 (by norm_num [sampleStatus]),
   (above_threshold_and_continue_charging {} 0 (sampleStatus "Tesla" 50 true)
      (by norm_num [sampleStatus])).2 rfl (by norm_num [sampleStatus])⟩

/-- In the open band `minimum_charge < battery_percent < charge_threshold`
(with a non-negative floor, not charging) rule 4 fires, the cap in `min` is
slack, and the score is exactly the linear ramp, strictly between `0` and
`100`. -/
theorem calc_band (engine : DecisionEngine) (now : ℤ) (s : VehicleStatus)
    (hm0 : 0 ≤ engine.minimum_charge)
    (h1 : engine.minimum_charge < s.battery_percent)
    (h2 : s.battery_percent < engine.charge_threshold)
    (h3 : s.is_charging = false) :
    ∃ r, calculate_recommendation engine now s = some r ∧
      r.action = ChargeAction.CHARGE ∧
      r.priority_score =
        (engine.charge_threshold - s.battery_percent) /
          engine.charge_threshold * 100 ∧
      0 < r.priority_score ∧ r.priority_score < 100 := by
  have hb : (0:ℚ) < s.battery_percent := lt_of_le_of_lt hm0 h1
  have ht : (0:ℚ) < engine.charge_threshold := lt_trans hb h2
  obtain ⟨r, hr, ha, hs⟩ := calc_rule4 engine now s (le_of_lt h1) h2 h3 ht.ne'
  have hlt : (engine.charge_threshold - s.battery_percent) /
      engine.charge_threshold * 100 < 100 := by
    rw [div_mul_eq_mul_div, div_lt_iff ht]
    nlinarith
  have hpos : 0 < (engine.charge_threshold - s.battery_percent) /
      engine.charge_threshold * 100 := by
    have : (0:ℚ) < engine.charge_threshold - s.battery_percent := by linarith
    positivity
  rw [min_eq_left (le_of_lt hlt)] at hs
  exact ⟨r, hr, ha, hs, hs ▸ hpos, hs ▸ hlt⟩

/-- C8: for all readings with battery strictly between `minimum_charge` and
`charge_threshold` and not charging, the action is `CHARGE` with
`0 < priority_score < 100`, and under the same configuration a strictly
higher battery percentage gives a strictly lower score. -/
theorem charge_band_strictly_monotone (engine : DecisionEngine) (now : ℤ)
    (s1 s2 : VehicleStatus) (hm0 : 0 ≤ engine.minimum_charge)
    (h11 : engine.minimum_charge < s1.battery_percent)
    (h12 : s1.battery_percent < engine.charge_threshold)
    (h13 : s1.is_charging = false)
    (h21 : engine.minimum_charge < s2.battery_percent)
    (h22 : s2.battery_percent < engine.charge_threshold)
    (h23 : s2.is_charging = false) :
    ∃ r1 r2, calculate_recommendation engine now s1 = some r1 ∧
      calculate_recommendation engine now s2 = some r2 ∧
      r1.action = ChargeAction.CHARGE ∧
      0 < r1.priority_score ∧ r1.priority_score < 100 ∧
      r2.action = ChargeAction.CHARGE ∧
      0 < r2.priority_score ∧ r2.priority_score < 100 ∧
      (s1.battery_percent < s2.battery_percent →
        r2.priority_score < r1.priority_score) := by
  have ht : (0:ℚ) < engine.charge_threshold :=
    lt_trans (lt_of_le_of_lt hm0 h11) h12
  obtain ⟨r1, hr1, ha1, hs1, hp1, hl1⟩ :=
    calc_band engine now s1 hm0 h11 h12 h13
  obtain ⟨r2, hr2, ha2, hs2, hp2, hl2⟩ :=
    calc_band engine now s2 hm0 h21 h22 h23
  refine ⟨r1, r2, hr1, hr2, ha1, hp1, hl1, ha2, hp2, hl2, fun hlt => ?_⟩
  rw [hs1, hs2, div_mul_eq_mul_div, div_mul_eq_mul_div,
    div_lt_div_iff ht ht]
  nlinarith

/-- Witness for C8 at batteries `30` and `60` under the default
configuration: both `CHARGE` with scores in `(0, 100)` and the fuller vehicle
scores strictly lower. -/
theorem charge_band_strictly_monotone_sample :
    ∃ r1 r2, calculate_recommendation {} 0 (sampleStatus "A" 30 false) =
        some r1 ∧
      calculate_recommendation {} 0 (sampleStatus "B" 60 false) = some r2 ∧
      r1.action = ChargeAction.CHARGE ∧
      0 < r1.priority_score ∧ r1.priority_score < 100 ∧
      r2.action = ChargeAction.CHARGE ∧
      0 < r2.priority_score ∧ r2.priority_score < 100 ∧
      ((sampleStatus "A" 30 false).battery_percent <
          (sampleStatus "B" 60 false).battery_percent →
        r2.priority_score < r1.priority_score) :=
  charge_band_strictly_monotone {} 0 (sampleStatus "A" 30 false)
    (sampleStatus "B" 60 false) (by norm_num)
    (by norm_num [sampleStatus]) (by norm_num [sampleStatus]) rfl
    (by norm_num [sampleStatus]) (by norm_num [sampleStatus]) rfl

/-- Counterexample to C6 as stated: with `minimum_charge = 0`,
`charge_threshold = 80` and a reading at `battery_percent = 0`, not charging
(all the stated data-model invariants hold and rule 4 is the rule that
fires: the battery is not below the floor, the vehicle is not charging, and
the battery is below the threshold), rule 4 returns `priority_score` exactly
`100`, so a score of `100.0` is not reserved to the critical-floor rule. -/
theorem rule4_score_reaches_100_at_zero_battery :
    (sampleStatus "Tesla" 0 false).battery_percent = 0 ∧
    (sampleStatus "Tesla" 0 false).is_charging = false ∧
    ¬ (sampleStatus "Tesla" 0 false).battery_percent <
        (DecisionEngine.mk 80 0).minimum_charge ∧
    (sampleStatus "Tesla" 0 false).battery_percent <
        (DecisionEngine.mk 80 0).charge_threshold ∧
    ∃ r, calculate_recommendation (DecisionEngine.mk 80 0) 0
        (sampleStatus "Tesla" 0 false) = some r ∧
      r.action = ChargeAction.CHARGE ∧ r.priority_score = 100 ∧
      ¬ r.priority_score < 100 := by
  refine ⟨rfl, rfl, by norm_num [sampleStatus], by norm_num [sampleStatus],
    ?_⟩
  obtain ⟨r, hr, ha, hs⟩ := calc_rule4 (DecisionEngine.mk 80 0) 0
    (sampleStatus "Tesla" 0 false) (by norm_num [sampleStatus])
    (by norm_num [sampleStatus]) rfl (by norm_num)
  have h100 : r.priority_score = 100 := by
    rw [hs]; norm_num [sampleStatus]
  exact ⟨r, hr, ha, h100, by rw [h100]; norm_num⟩

/-- C6 (amended): under the stated data-model invariants, whenever rule 4 is
reached with a strictly positive battery percentage the score is strictly
below `100`; the sole boundary case is `battery_percent = 0` (possible in
rule 4 only when `minimum_charge = 0`), where rule 4 also returns exactly
`100.0`. -/
theorem rule4_score_lt_100_of_pos_battery (engine : DecisionEngine)
    (now : ℤ) (s : VehicleStatus) (hb1 : s.battery_percent ≤ 100)
    (hm0 : 0 ≤ engine.minimum_charge)
    (hmt : engine.minimum_charge ≤ engine.charge_threshold)
    (ht1 : engine.charge_threshold ≤ 100)
    (hmin : engine.minimum_charge ≤ s.battery_percent)
    (hthr : s.battery_percent < engine.charge_threshold)
    (hch : s.is_charging = false) (hpos : 0 < s.battery_percent) :
    ∃ r, calculate_recommendation engine now s = some r ∧
      r.priority_score < 100 := by
  have ht : (0:ℚ) < engine.charge_threshold := lt_trans hpos hthr
  obtain ⟨r, hr, -, hs⟩ := calc_rule4 engine now s hmin hthr hch ht.ne'
  refine ⟨r, hr, ?_⟩
  rw [hs]
  have hlt : (engine.charge_threshold - s.battery_percent) /
      engine.charge_threshold * 100 < 100 := by
    rw [div_mul_eq_mul_div, div_lt_iff ht]
    nlinarith
  exact lt_of_le_of_lt (min_le_left _ _) hlt

/-- Witness for the amended C6 at `battery = 40` under the default
configuration. -/
theorem rule4_score_lt_100_of_pos_battery_sample :
    ∃ r, calculate_recommendation {} 0 (sampleStatus "Tesla" 40 false) =
        some r ∧
      r.priority_score < 100 :=
  rule4_score_lt_100_of_pos_battery {} 0 (sampleStatus "Tesla" 40 false)
    (by norm_num [sampleStatus]) (by norm_num) (by norm_num) (by norm_num)
    (by norm_num [sampleStatus]) (by norm_num [sampleStatus]) rfl
    (by norm_num [sampleStatus])

/-- Counterexample to C7 as stated: with the invalid configuration
`charge_threshold = 0`, `minimum_charge = -10` and an out-of-range reading at
`battery_percent = -5`, not charging, no earlier rule fires before rule 4 and
the rule-4 division `(charge_threshold - battery_percent) / charge_threshold`
is evaluated with a zero divisor: Python raises `ZeroDivisionError`, modelled
here as `none`. -/
theorem zero_threshold_division_raises :
    calculate_recommendation (DecisionEngine.mk 0 (-10)) 0
      (sampleStatus "Tesla" (-5) false) = none := by
  norm_num [calculate_recommendation, sampleStatus]

/-- C7 (amended): `calculate_recommendation` returns a result for every
numeric input except exactly when `charge_threshold = 0`, the vehicle is not
charging, and `minimum_charge ≤ battery_percent < 0` — a case requiring both
an invalid configuration (`minimum_charge < 0`) and an out-of-range battery;
in particular, with `battery_percent ≥ 0`, or with `minimum_charge ≥ 0`, or
with `charge_threshold ≠ 0`, the procedure is total and the rule-4 division
is never evaluated with a zero divisor. -/
theorem calculate_recommendation_none_iff (engine : DecisionEngine)
    (now : ℤ) (s : VehicleStatus) :
    calculate_recommendation engine now s = none ↔
      (engine.charge_threshold = 0 ∧ s.is_charging = false ∧
       engine.minimum_charge ≤ s.battery_percent ∧
       s.battery_percent < 0) := by
  unfold calculate_recommendation
  split_ifs with h1 h2 h3 h4 h5
  all_goals simp_all
  intro h
  rw [h] at h4
  exact h4

/-- Exactly what the continue-charging branch of rule 2 produces. -/
theorem calc_continue (engine : DecisionEngine) (now : ℤ)
    (s : VehicleStatus) (hmin : engine.minimum_charge ≤ s.battery_percent)
    (hch : s.is_charging = true)
    (hlt : s.battery_percent < engine.charge_threshold) :
    ∃ r, calculate_recommendation engine now s = some r ∧
      r.action = ChargeAction.CONTINUE_CHARGING ∧ r.priority_score = 50 := by
  unfold calculate_recommendation
  rw [if_neg (not_lt.mpr hmin), if_pos hch, if_pos hlt]
  exact ⟨_, rfl, rfl, rfl⟩

/-- A value always comes out of `compare_vehicles` when both batteries are
non-negative. -/
theorem compare_isSome (engine : DecisionEngine) (now : ℤ)
    (a b : VehicleStatus) (ha : 0 ≤ a.battery_percent)
    (hb : 0 ≤ b.battery_percent) :
    ∃ p, compare_vehicles engine now a b = some p := by
  obtain ⟨ra, hra⟩ := calc_isSome engine now a ha
  obtain ⟨rb, hrb⟩ := calc_isSome engine now b hb
  unfold compare_vehicles
  rw [hra, hrb]
  simp only [Option.bind_eq_bind, Option.some_bind]
  split_ifs <;> exact ⟨_, rfl⟩

/-- C1: for every pair of readings and every configuration (with the
data-model battery range), `compare_vehicles` returns exactly the verdict
described by the specification and captured by `compareSpec`: `"NONE"` when
neither recommendation needs charging, the unique needing vehicle's name when
exactly one does, otherwise strictly higher `priority_score` wins, exact
score ties broken by strictly lower `battery_percent`, and the second
vehicle winning when the battery percentages are also equal. -/
theorem compare_vehicles_refines_spec (engine : DecisionEngine) (now : ℤ)
    (a b : VehicleStatus) (ha : 0 ≤ a.battery_percent)
    (hb : 0 ≤ b.battery_percent) :
    ∃ ra rb, calculate_recommendation engine now a = some ra ∧
      calculate_recommendation engine now b = some rb ∧
      compare_vehicles engine now a b = some (compareSpec ra rb a b) := by
  obtain ⟨ra, hra⟩ := calc_isSome engine now a ha
  obtain ⟨rb, hrb⟩ := calc_isSome engine now b hb
  refine ⟨ra, rb, hra, hrb, ?_⟩
  unfold compare_vehicles compareSpec
  rw [hra, hrb]
  simp only [Option.bind_eq_bind, Option.some_bind]
  split_ifs <;> rfl

/-- Witness for C1 at batteries `60` and `30`, both idle, default
configuration: the more depleted second vehicle wins, in agreement with
`compareSpec`. -/
theorem compare_vehicles_refines_spec_sample :
    compare_vehicles {} 0 (sampleStatus "Tesla" 60 false)
        (sampleStatus "Ioniq" 30 false) = some "Ioniq" ∧
    ∃ ra rb,
      calculate_recommendation {} 0 (sampleStatus "Tesla" 60 false) =
        some ra ∧
      calculate_recommendation {} 0 (sampleStatus "Ioniq" 30 false) =
        some rb ∧
      compare_vehicles {} 0 (sampleStatus "Tesla" 60 false)
          (sampleStatus "Ioniq" 30 false) =
        some (compareSpec ra rb (sampleStatus "Tesla" 60 false)
          (sampleStatus "Ioniq" 30 false)) :=
  ⟨by norm_num [compare_vehicles, calculate_recommendation, sampleStatus,
      needs_charging, min_def],
   compare_vehicles_refines_spec {} 0 (sampleStatus "Tesla" 60 false)
     (sampleStatus "Ioniq" 30 false) (by norm_num [sampleStatus])
     (by norm_num [sampleStatus])⟩

/-- C5: with only one vehicle present, `calculate_dual_recommendations` sets
`priority_vehicle` to the vehicle's name exactly when its recommendation's
action is `CHARGE` (not the broader needs-charging predicate) and to
`"NONE"` otherwise; with both vehicles present it delegates the priority to
`compare_vehicles` and populates both recommendations. -/
theorem calculate_dual_recommendations_spec (engine : DecisionEngine)
    (now : ℤ) (a : VehicleStatus) (ha : 0 ≤ a.battery_percent) :
    (∃ ra, calculate_recommendation engine now a = some ra ∧
      calculate_dual_recommendations engine now a none =
        some { tesla := ra, ioniq := none,
               priority_vehicle :=
                 if ra.action = ChargeAction.CHARGE then a.vehicle_name
                 else "NONE" })
    ∧ ∀ b : VehicleStatus, 0 ≤ b.battery_percent →
        ∃ ra rb p, calculate_recommendation engine now a = some ra ∧
          calculate_recommendation engine now b = some rb ∧
          compare_vehicles engine now a b = some p ∧
          calculate_dual_recommendations engine now a (some b) =
            some { tesla := ra, ioniq := some rb,
                   priority_vehicle := p } := by
  obtain ⟨ra, hra⟩ := calc_isSome engine now a ha
  constructor
  · refine ⟨ra, hra, ?_⟩
    unfold calculate_dual_recommendations
    rw [hra]
    simp only [Option.bind_eq_bind, Option.some_bind]
    rfl
  · intro b hb
    obtain ⟨rb, hrb⟩ := calc_isSome engine now b hb
    obtain ⟨p, hp⟩ := compare_isSome engine now a b ha hb
    refine ⟨ra, rb, p, hra, hrb, hp, ?_⟩
    unfold calculate_dual_recommendations
    rw [hra]
    simp only [Option.bind_eq_bind, Option.some_bind]
    rw [hrb]
    simp only [Option.bind_eq_bind, Option.some_bind]
    rw [hp]
    simp only [Option.bind_eq_bind, Option.some_bind]
    rfl

/-- Witness for C5 at `battery = 50`, charging, no second vehicle: the lone
recommendation is `CONTINUE_CHARGING`, yet `priority_vehicle` is `"NONE"` —
the single-vehicle path uses only `action = CHARGE`. -/
theorem calculate_dual_recommendations_spec_sample :
    ∃ ra, calculate_recommendation {} 0 (sampleStatus "Tesla" 50 true) =
        some ra ∧
      ra.action = ChargeAction.CONTINUE_CHARGING ∧
      calculate_dual_recommendations {} 0 (sampleStatus "Tesla" 50 true)
          none =
        some { tesla := ra, ioniq := none, priority_vehicle := "NONE" } := by
  obtain ⟨r0, hr0, hact, -⟩ := calc_continue {} 0
    (sampleStatus "Tesla" 50 true) (by norm_num [sampleStatus]) rfl
    (by norm_num [sampleStatus])
  obtain ⟨ra, hra, hd⟩ := (calculate_dual_recommendations_spec {} 0
    (sampleStatus "Tesla" 50 true) (by norm_num [sampleStatus])).1
  have he : ra = r0 := Option.some.inj (hra.symm.trans hr0)
  subst he
  have hno : (if ra.action = ChargeAction.CHARGE then
      (sampleStatus "Tesla" 50 true).vehicle_name else "NONE") = "NONE" := by
    rw [hact]
    simp
  rw [hno] at hd
  exact ⟨ra, hra, hact, hd⟩

/-- C9: `update_threshold` rejects exactly the values outside `[0, 100]`
(raising `ValueError`, modelled as `Except.error`, in which case the engine
is unchanged because the assignment in the source runs only after the
check); on success the threshold becomes exactly the new value and
`minimum_charge` is unchanged. -/
theorem update_threshold_validates (engine : DecisionEngine)
    (new_threshold : ℚ) :
    (0 ≤ new_threshold ∧ new_threshold ≤ 100 →
      update_threshold engine new_threshold =
        Except.ok { charge_threshold := new_threshold,
                    minimum_charge := engine.minimum_charge })
    ∧ (¬ (0 ≤ new_threshold ∧ new_threshold ≤ 100) →
      update_threshold engine new_threshold =
        Except.error "Threshold must be between 0 and 100") := by
  constructor
  · intro h
    unfold update_threshold
    rw [if_pos h]
  · intro h
    unfold update_threshold
    rw [if_neg h]

/-- Witness for C9: updating the default engine to `50` succeeds and keeps
`minimum_charge = 20`; updating it to `150` is rejected. -/
theorem update_threshold_validates_sample :
    update_threshold {} 50 = Except.ok (DecisionEngine.mk 50 20) ∧
    update_threshold {} 150 =
      Except.error "Threshold must be between 0 and 100" :=
  ⟨(update_threshold_validates {} 50).1 (by norm_num),
   (update_threshold_validates {} 150).2 (by norm_num)⟩

/-- C10: the logical decision depends only on `battery_percent` and
`is_charging` together with the configuration: two statuses agreeing on
those two fields receive recommendations with identical `action`,
`priority_score`, `battery_percent` and `threshold`, whatever their names,
ranges, locations, timestamps, charging rates, GPS coordinates or
addresses, and whatever the wall-clock times of the two calls. -/
theorem calculate_recommendation_noninterference (engine : DecisionEngine)
    (t1 t2 : ℤ) (a b : VehicleStatus)
    (hbat : a.battery_percent = b.battery_percent)
    (hch : a.is_charging = b.is_charging) :
    (calculate_recommendation engine t1 a).map logicalFields =
      (calculate_recommendation engine t2 b).map logicalFields := by
  unfold calculate_recommendation
  rw [hbat, hch]
  split_ifs <;> rfl

/-- Witness for C10: two statuses at `battery = 55`, idle, differing in
name, range, location, timestamp, mock flag, charging rate, GPS coordinates
and address, evaluated at different wall-clock times, project to the same
logical recommendation. -/
theorem calculate_recommendation_noninterference_sample :
    (calculate_recommendation {} 0
        { vehicle_name := "Tesla", battery_percent := 55, range_km := 240,
          is_charging := false, location := "home",
          last_updated := 0 }).map logicalFields =
      (calculate_recommendation {} 5
        { vehicle_name := "Ioniq", battery_percent := 55, range_km := 310,
          is_charging := false, location := "away", last_updated := 999,
          is_mock := true, charging_rate_kw := some 11,
          estimated_full_time := some 1234, latitude := some 59,
          longitude := some 10, address := some "Oslo" }).map
        logicalFields :=
  calculate_recommendation_noninterference {} 0 5 _ _ rfl rfl

end Garasje
